import Mathlib

/-!
Verification development for the volumetric path integrator and the layered
scattering evaluator of this renderer.  The embedding follows the source
(`src/pbrt/bxdfs.h`, `src/pbrt/integrators/volpath.cpp`); machine `Float`
values are modelled as rationals, external utility routines that live in
headers outside this repository slice (vector math, sampling utilities,
Fresnel formulas, the counter-based RNG) are taken as explicit parameters or
modelled from the specification where noted.
-/

namespace Pbrt

/-- Source constant `Pi` (`pbrt.h`), taken as the literal written in the
source; only its positivity and symbolic role matter here. -/
def piF : ℚ := 3.14159265358979323846

/-- Source constant `InvPi`, the literal written in the source. -/
def invPiF : ℚ := 0.31830988618379067154

/-- Modelled from the spec: `std::numeric_limits<Float>::min()`, the smallest
positive normal `float` (the build's `Float` is 32-bit), `2^-126`. -/
def floatMin : ℚ := 1 / 2 ^ 126

/-- Modelled from the spec: the `OneMinusEpsilon` constant, the largest
`float` below 1, namely `1 - 2^-24`. -/
def oneMinusEpsilonF : ℚ := 1 - 1 / 2 ^ 24

/-- Modelled from the spec: `Lerp(t, a, b) = (1-t)*a + t*b` from the math
utilities, used by `LayeredBxDF::PDF` for the 0.9/0.1 mixture. -/
def lerpQ (t a b : ℚ) : ℚ := (1 - t) * a + t * b

/-- Modelled from the spec: the MIS power heuristic
`PowerHeuristic(nf, fPdf, ng, gPdf) = (nf*fPdf)^2 / ((nf*fPdf)^2 + (ng*gPdf)^2)`
from the sampling utilities (division by zero yields 0 in this model). -/
def powerHeuristic (nf fPdf ng gPdf : ℚ) : ℚ :=
  (nf * fPdf) ^ 2 / ((nf * fPdf) ^ 2 + (ng * gPdf) ^ 2)

/-- Local-frame direction vector (`Vector3f`), components as rationals. -/
structure Vec3 where
  x : ℚ
  y : ℚ
  z : ℚ
deriving DecidableEq, Repr

instance : Neg Vec3 := ⟨fun v => ⟨-v.x, -v.y, -v.z⟩⟩

/-- Dot product of two vectors. -/
def dot (a b : Vec3) : ℚ := a.x * b.x + a.y * b.y + a.z * b.z

/-- `SameHemisphere(w, wp)`: both z components have the same sign. -/
def sameHemisphere (a b : Vec3) : Prop := 0 < a.z * b.z

instance (a b : Vec3) : Decidable (sameHemisphere a b) := by
  unfold sameHemisphere; infer_instance

/-- `AbsCosTheta(w) = |w.z|` in the shading frame. -/
def absCosTheta (w : Vec3) : ℚ := |w.z|

/-- Modelled from the spec: `Reflect(wo, n) = -wo + 2*Dot(wo,n)*n`
(vector math utilities). -/
def reflect (wo n : Vec3) : Vec3 :=
  ⟨-wo.x + 2 * dot wo n * n.x, -wo.y + 2 * dot wo n * n.y,
   -wo.z + 2 * dot wo n * n.z⟩

/-- Modelled from the spec: `FaceForward(a, b)` flips `a` so it lies in the
hemisphere of `b` (vector math utilities). -/
def faceForward (a b : Vec3) : Vec3 := if dot a b < 0 then -a else a

/-- The shading-frame normal `(0,0,1)`. -/
def n001 : Vec3 := ⟨0, 0, 1⟩

/-- Two-dimensional uniform sample (`Point2f`). -/
structure Point2 where
  x : ℚ
  y : ℚ
deriving DecidableEq, Repr

/-- Spectral value used by the scattering code (`SampledSpectrum`,
a fixed-size tuple of four samples with elementwise arithmetic). -/
structure SampledSpectrum where
  c0 : ℚ
  c1 : ℚ
  c2 : ℚ
  c3 : ℚ
deriving DecidableEq, Repr

namespace SampledSpectrum

/-- Broadcast constructor `SampledSpectrum(Float)`. -/
def ofQ (a : ℚ) : SampledSpectrum := ⟨a, a, a, a⟩

instance : Zero SampledSpectrum := ⟨ofQ 0⟩

instance : Add SampledSpectrum :=
  ⟨fun a b => ⟨a.c0 + b.c0, a.c1 + b.c1, a.c2 + b.c2, a.c3 + b.c3⟩⟩

instance : Mul SampledSpectrum :=
  ⟨fun a b => ⟨a.c0 * b.c0, a.c1 * b.c1, a.c2 * b.c2, a.c3 * b.c3⟩⟩

/-- Multiplication of a spectrum by a scalar. -/
def scale (s : SampledSpectrum) (a : ℚ) : SampledSpectrum :=
  ⟨s.c0 * a, s.c1 * a, s.c2 * a, s.c3 * a⟩

/-- Division of a spectrum by a scalar. -/
def divQ (s : SampledSpectrum) (a : ℚ) : SampledSpectrum :=
  ⟨s.c0 / a, s.c1 / a, s.c2 / a, s.c3 / a⟩

/-- `MaxComponentValue()`. -/
def maxComponent (s : SampledSpectrum) : ℚ :=
  max (max s.c0 s.c1) (max s.c2 s.c3)

end SampledSpectrum

/-- Spectral value used by the integrator (`Spectrum` of the integrator
translation unit, a three-channel tuple with elementwise arithmetic). -/
structure RGBSpec where
  r : ℚ
  g : ℚ
  b : ℚ
deriving DecidableEq, Repr

namespace RGBSpec

/-- Broadcast constructor `Spectrum(Float)`. -/
def ofQ (a : ℚ) : RGBSpec := ⟨a, a, a⟩

instance : Zero RGBSpec := ⟨ofQ 0⟩

instance : Add RGBSpec := ⟨fun a b => ⟨a.r + b.r, a.g + b.g, a.b + b.b⟩⟩

instance : Mul RGBSpec := ⟨fun a b => ⟨a.r * b.r, a.g * b.g, a.b * b.b⟩⟩

/-- Multiplication of a spectrum by a scalar. -/
def scale (s : RGBSpec) (a : ℚ) : RGBSpec := ⟨s.r * a, s.g * a, s.b * a⟩

/-- Division of a spectrum by a scalar. -/
def divQ (s : RGBSpec) (a : ℚ) : RGBSpec := ⟨s.r / a, s.g / a, s.b / a⟩

/-- `MaxComponentValue()`. -/
def maxComponent (s : RGBSpec) : ℚ := max (max s.r s.g) s.b

end RGBSpec

/-- Light-transport mode (`TransportMode`). -/
inductive TransportMode where
  | Radiance
  | Importance
deriving DecidableEq, Repr

/-- The `~mode` operation flipping between radiance and importance
transport. -/
def flipMode : TransportMode → TransportMode
  | .Radiance => .Importance
  | .Importance => .Radiance

/-- Modelled from the spec: the `BxDFFlags` capability bitmask
(Reflection|Transmission crossed with Diffuse|Glossy|Specular). -/
structure BxDFFlags where
  reflection : Bool
  transmission : Bool
  diffuse : Bool
  glossy : Bool
  specular : Bool
deriving DecidableEq, Repr

namespace BxDFFlags

/-- The empty flag set (`Unset`). -/
def unset : BxDFFlags := ⟨false, false, false, false, false⟩

/-- `DiffuseReflection`. -/
def diffuseReflection : BxDFFlags := ⟨true, false, true, false, false⟩

/-- `DiffuseTransmission`. -/
def diffuseTransmission : BxDFFlags := ⟨false, true, true, false, false⟩

/-- `GlossyReflection`. -/
def glossyReflection : BxDFFlags := ⟨true, false, false, true, false⟩

/-- `GlossyTransmission`. -/
def glossyTransmission : BxDFFlags := ⟨false, true, false, true, false⟩

/-- `SpecularReflection`. -/
def specularReflection : BxDFFlags := ⟨true, false, false, false, true⟩

/-- `SpecularTransmission`. -/
def specularTransmission : BxDFFlags := ⟨false, true, false, false, true⟩

end BxDFFlags

/-- Modelled from the spec: `BxDFReflTransFlags`, the lobe mask restricting
sampling to a subset of reflection/transmission. -/
structure ReflTrans where
  reflection : Bool
  transmission : Bool
deriving DecidableEq, Repr

namespace ReflTrans

/-- `BxDFReflTransFlags::All`. -/
def all : ReflTrans := ⟨true, true⟩

/-- `BxDFReflTransFlags::Reflection`. -/
def reflOnly : ReflTrans := ⟨true, false⟩

/-- `BxDFReflTransFlags::Transmission`. -/
def transOnly : ReflTrans := ⟨false, true⟩

end ReflTrans

/-- Modelled from the spec: the scattering sample
`{spectral value f, direction wi, density pdf, flag set, validity bit}`.
Per the data-model invariant, the validity bit is the derived predicate
"f nonzero and pdf strictly positive" (the sample's boolean conversion);
a default-constructed sample (`return {}`) has `pdf = 0` and is invalid. -/
structure BSDFSample where
  f : SampledSpectrum
  wi : Vec3
  pdf : ℚ
  flags : BxDFFlags
deriving DecidableEq, Repr

namespace BSDFSample

/-- The invalid sample produced by `return {}`. -/
def invalid : BSDFSample := ⟨0, ⟨0, 0, 0⟩, 0, BxDFFlags.unset⟩

/-- The validity bit: f nonzero and pdf strictly positive. -/
def isValid (s : BSDFSample) : Bool :=
  decide (s.f ≠ 0) && decide (0 < s.pdf)

/-- `IsReflection()`. -/
def IsReflection (s : BSDFSample) : Bool := s.flags.reflection

/-- `IsTransmission()`. -/
def IsTransmission (s : BSDFSample) : Bool := s.flags.transmission

end BSDFSample

/-- Modelled from the spec: the bundle of external utility routines consumed
through the capability interface (sampling utilities, Fresnel formulas and
square-root based vector helpers live outside this repository slice). -/
structure ExternalFns where
  sampleCosineHemisphere : Point2 → Vec3
  frDielectric : ℚ → ℚ → ℚ
  frConductor : ℚ → SampledSpectrum → SampledSpectrum → SampledSpectrum
  refract : Vec3 → Vec3 → ℚ → Option Vec3
  sinThetaOf : Vec3 → ℚ
  cosDPhi : Vec3 → Vec3 → ℚ

/-- Modelled from the spec: `SampleDiscrete({w0, w1}, u, &pdf)` from the
sampling utilities; picks index 0 when `u` falls below the normalized first
weight and reports that choice's discrete probability. -/
def sampleDiscrete2 (w0 w1 u : ℚ) : ℕ × ℚ :=
  if u < w0 / (w0 + w1) then (0, w0 / (w0 + w1)) else (1, w1 / (w0 + w1))

/-- Modelled from the spec: the microfacet distribution is consumed only
through a capability interface (`D`, `G`, its sampling routine and density,
and the effectively-specular predicate); the concrete formulas are external. -/
structure TrowbridgeReitzDistribution where
  D : Vec3 → ℚ
  G : Vec3 → Vec3 → ℚ
  pdfWm : Vec3 → Vec3 → ℚ
  sampleWm : Vec3 → Point2 → Vec3
  effectivelySpecular : Bool

/-- `IdealDiffuseBxDF`: Lambertian reflection with reflectance `R`. -/
structure IdealDiffuseBxDF where
  R : SampledSpectrum
deriving DecidableEq

namespace IdealDiffuseBxDF

/-- `IdealDiffuseBxDF::f`. -/
def f (b : IdealDiffuseBxDF) (wo wi : Vec3) (_mode : TransportMode) :
    SampledSpectrum :=
  if ¬sameHemisphere wo wi then 0 else b.R.scale invPiF

/-- `IdealDiffuseBxDF::Sample_f`. -/
def Sample_f (E : ExternalFns) (b : IdealDiffuseBxDF) (wo : Vec3) (_uc : ℚ)
    (u : Point2) (mode : TransportMode) (sampleFlags : ReflTrans) : BSDFSample :=
  if ¬sampleFlags.reflection then BSDFSample.invalid
  else
    let wi0 := E.sampleCosineHemisphere u
    let wi := if wo.z < 0 then ⟨wi0.x, wi0.y, wi0.z * (-1)⟩ else wi0
    let pdf := absCosTheta wi * invPiF
    ⟨b.f wo wi mode, wi, pdf, BxDFFlags.diffuseReflection⟩

/-- `IdealDiffuseBxDF::PDF`. -/
def PDF (_b : IdealDiffuseBxDF) (wo wi : Vec3) (_mode : TransportMode)
    (sampleFlags : ReflTrans) : ℚ :=
  if ¬sampleFlags.reflection then 0
  else if sameHemisphere wo wi then absCosTheta wi * invPiF else 0

end IdealDiffuseBxDF

/-- `DiffuseBxDF`: Oren--Nayar reflection `R` and transmission `T`; the
constructor-computed coefficients `A`, `B` are stored. -/
structure DiffuseBxDF where
  R : SampledSpectrum
  T : SampledSpectrum
  A : ℚ
  B : ℚ
deriving DecidableEq

namespace DiffuseBxDF

/-- `DiffuseBxDF` constructor: computes the Oren--Nayar coefficients from
the roughness angle `sigma` (degrees). -/
def ctor (R T : SampledSpectrum) (sigma : ℚ) : DiffuseBxDF :=
  let sigma2 := (piF / 180 * sigma) ^ 2
  { R := R, T := T,
    A := 1 - sigma2 / (2 * (sigma2 + 0.33)),
    B := 0.45 * sigma2 / (sigma2 + 0.09) }

/-- `DiffuseBxDF::f`. -/
def f (E : ExternalFns) (b : DiffuseBxDF) (wo wi : Vec3)
    (_mode : TransportMode) : SampledSpectrum :=
  if b.B = 0 then
    if sameHemisphere wo wi then b.R.scale invPiF else b.T.scale invPiF
  else if (sameHemisphere wo wi ∧ b.R = 0) ∨
      (¬sameHemisphere wo wi ∧ b.T = 0) then 0
  else
    let sinTheta_i := E.sinThetaOf wi
    let sinTheta_o := E.sinThetaOf wo
    let maxCos := if 0 < sinTheta_i ∧ 0 < sinTheta_o then
        max 0 (E.cosDPhi wi wo) else 0
    let sinAlpha := if absCosTheta wo < absCosTheta wi then sinTheta_o
      else sinTheta_i
    let tanBeta := if absCosTheta wo < absCosTheta wi then
        sinTheta_i / absCosTheta wi else sinTheta_o / absCosTheta wo
    if sameHemisphere wo wi then
      b.R.scale (invPiF * (b.A + b.B * maxCos * sinAlpha * tanBeta))
    else
      b.T.scale (invPiF * (b.A + b.B * maxCos * sinAlpha * tanBeta))

/-- `DiffuseBxDF::Sample_f`. -/
def Sample_f (E : ExternalFns) (b : DiffuseBxDF) (wo : Vec3) (uc : ℚ)
    (u : Point2) (mode : TransportMode) (sampleFlags : ReflTrans) : BSDFSample :=
  let pr := if sampleFlags.reflection then b.R.maxComponent else 0
  let pt := if sampleFlags.transmission then b.T.maxComponent else 0
  if pr = 0 ∧ pt = 0 then BSDFSample.invalid
  else if (sampleDiscrete2 pr pt uc).1 = 0 then
    let cpdf := (sampleDiscrete2 pr pt uc).2
    let wi0 := E.sampleCosineHemisphere u
    let wi := if wo.z < 0 then ⟨wi0.x, wi0.y, wi0.z * (-1)⟩ else wi0
    let pdf := absCosTheta wi * invPiF * cpdf
    ⟨b.f E wo wi mode, wi, pdf, BxDFFlags.diffuseReflection⟩
  else
    let cpdf := (sampleDiscrete2 pr pt uc).2
    let wi0 := E.sampleCosineHemisphere u
    let wi := if 0 < wo.z then ⟨wi0.x, wi0.y, wi0.z * (-1)⟩ else wi0
    let pdf := absCosTheta wi * invPiF * cpdf
    ⟨b.f E wo wi mode, wi, pdf, BxDFFlags.diffuseTransmission⟩

/-- `DiffuseBxDF::PDF`. -/
def PDF (b : DiffuseBxDF) (wo wi : Vec3) (_mode : TransportMode)
    (sampleFlags : ReflTrans) : ℚ :=
  let pr := if sampleFlags.reflection then b.R.maxComponent else 0
  let pt := if sampleFlags.transmission then b.T.maxComponent else 0
  if pr = 0 ∧ pt = 0 then 0
  else if sameHemisphere wo wi then pr / (pr + pt) * absCosTheta wi * invPiF
  else pt / (pr + pt) * absCosTheta wi * invPiF

end DiffuseBxDF

/-- `DielectricInterfaceBxDF`: smooth or rough dielectric boundary with
relative index of refraction `eta`. -/
structure DielectricInterfaceBxDF where
  eta : ℚ
  mfDistrib : TrowbridgeReitzDistribution

namespace DielectricInterfaceBxDF

/-- `DielectricInterfaceBxDF` constructor: an `eta` argument exactly 1 is
replaced by 1.001, anything else is stored unchanged. -/
def ctor (eta : ℚ) (mfDistrib : TrowbridgeReitzDistribution) :
    DielectricInterfaceBxDF :=
  { eta := if eta = 1 then 1.001 else eta, mfDistrib := mfDistrib }

/-- `DielectricInterfaceBxDF::Sample_f`. -/
def Sample_f (E : ExternalFns) (b : DielectricInterfaceBxDF) (wo : Vec3)
    (uc : ℚ) (u : Point2) (mode : TransportMode) (sampleFlags : ReflTrans) :
    BSDFSample :=
  if wo.z = 0 then BSDFSample.invalid
  else if b.mfDistrib.effectivelySpecular then
    -- Sample delta dielectric interface
    let R := E.frDielectric wo.z b.eta
    let T := 1 - R
    let pr := if sampleFlags.reflection then R else 0
    let pt := if sampleFlags.transmission then T else 0
    if pr = 0 ∧ pt = 0 then BSDFSample.invalid
    else if uc < pr / (pr + pt) then
      let wi : Vec3 := ⟨-wo.x, -wo.y, wo.z⟩
      ⟨SampledSpectrum.ofQ (R / absCosTheta wi), wi, pr / (pr + pt),
        BxDFFlags.specularReflection⟩
    else
      let etap := if 0 < wo.z then b.eta else 1 / b.eta
      match E.refract wo (faceForward n001 wo) etap with
      | none => BSDFSample.invalid
      | some wi =>
        let ft := SampledSpectrum.ofQ (T / absCosTheta wi)
        let ft := if mode = TransportMode.Radiance then ft.scale (1 / etap ^ 2)
          else ft
        ⟨ft, wi, pt / (pr + pt), BxDFFlags.specularTransmission⟩
  else
    -- Sample non-delta dielectric interface
    let wh := b.mfDistrib.sampleWm wo u
    let F := E.frDielectric (dot (reflect wo wh) (faceForward wh n001)) b.eta
    let R := F
    let T := 1 - R
    let pr := if sampleFlags.reflection then R else 0
    let pt := if sampleFlags.transmission then T else 0
    if pr = 0 ∧ pt = 0 then BSDFSample.invalid
    else if uc < pr / (pr + pt) then
      let wi := reflect wo wh
      if ¬sameHemisphere wo wi ∨ dot wo wh ≤ 0 then BSDFSample.invalid
      else
        let pdf := b.mfDistrib.pdfWm wo wh / (4 * dot wo wh) * pr / (pr + pt)
        let cosTheta_o := absCosTheta wo
        let cosTheta_i := absCosTheta wi
        if cosTheta_i = 0 ∨ cosTheta_o = 0 then BSDFSample.invalid
        else
          let fv := SampledSpectrum.ofQ (b.mfDistrib.D wh * b.mfDistrib.G wo wi
            * F / (4 * cosTheta_i * cosTheta_o))
          if b.mfDistrib.effectivelySpecular then
            ⟨fv.divQ pdf, wi, 1, BxDFFlags.specularReflection⟩
          else ⟨fv, wi, pdf, BxDFFlags.glossyReflection⟩
    else
      let etap := if 0 < wo.z then b.eta else 1 / b.eta
      match E.refract wo wh etap with
      | none => BSDFSample.invalid
      | some wi =>
        if sameHemisphere wo wi then BSDFSample.invalid
        else if wi.z = 0 then BSDFSample.invalid
        else
          let wh := faceForward wh n001
          let sqrtDenom := dot wo wh + etap * dot wi wh
          let factor := if mode = TransportMode.Radiance then 1 / etap ^ 2
            else 1
          let fv := SampledSpectrum.ofQ ((1 - F) * factor *
            |b.mfDistrib.D wh * b.mfDistrib.G wo wi * |dot wi wh| * |dot wo wh|
              / (absCosTheta wi * absCosTheta wo * sqrtDenom ^ 2)|)
          let dwh_dwi := |dot wi wh| / sqrtDenom ^ 2
          let pdf := b.mfDistrib.pdfWm wo wh * dwh_dwi * pt / (pr + pt)
          if b.mfDistrib.effectivelySpecular then
            ⟨fv.divQ pdf, wi, 1, BxDFFlags.specularTransmission⟩
          else ⟨fv, wi, pdf, BxDFFlags.glossyTransmission⟩

end DielectricInterfaceBxDF

/-- `ThinDielectricBxDF`: both-face specular interaction with a thin slab of
index `eta`. -/
structure ThinDielectricBxDF where
  eta : ℚ

namespace ThinDielectricBxDF

/-- `ThinDielectricBxDF::Sample_f`. -/
def Sample_f (E : ExternalFns) (b : ThinDielectricBxDF) (wo : Vec3) (uc : ℚ)
    (_u : Point2) (_mode : TransportMode) (sampleFlags : ReflTrans) :
    BSDFSample :=
  let R0 := E.frDielectric wo.z b.eta
  let T0 := 1 - R0
  let R := if R0 < 1 then R0 + T0 * T0 * R0 / (1 - R0 * R0) else R0
  let T := if R0 < 1 then 1 - (R0 + T0 * T0 * R0 / (1 - R0 * R0)) else T0
  let pr := if sampleFlags.reflection then R else 0
  let pt := if sampleFlags.transmission then T else 0
  if pr = 0 ∧ pt = 0 then BSDFSample.invalid
  else if uc < pr / (pr + pt) then
    let wi : Vec3 := ⟨-wo.x, -wo.y, wo.z⟩
    ⟨SampledSpectrum.ofQ (R / absCosTheta wi), wi, pr / (pr + pt),
      BxDFFlags.specularReflection⟩
  else
    let wi : Vec3 := ⟨-wo.x, -wo.y, -wo.z⟩
    ⟨SampledSpectrum.ofQ (T / absCosTheta wi), wi, pt / (pr + pt),
      BxDFFlags.specularTransmission⟩

end ThinDielectricBxDF

/-- `ConductorBxDF`: microfacet conductor with spectral `eta` and `k`. -/
structure ConductorBxDF where
  mfDistrib : TrowbridgeReitzDistribution
  eta : SampledSpectrum
  k : SampledSpectrum

namespace ConductorBxDF

/-- `ConductorBxDF::Sample_f`. -/
def Sample_f (E : ExternalFns) (b : ConductorBxDF) (wo : Vec3) (_uc : ℚ)
    (u : Point2) (_mode : TransportMode) (sampleFlags : ReflTrans) :
    BSDFSample :=
  if ¬sampleFlags.reflection then BSDFSample.invalid
  else if b.mfDistrib.effectivelySpecular then
    let wi : Vec3 := ⟨-wo.x, -wo.y, wo.z⟩
    let fv := (E.frConductor (absCosTheta wi) b.eta b.k).divQ (absCosTheta wi)
    ⟨fv, wi, 1, BxDFFlags.specularReflection⟩
  else if wo.z = 0 then BSDFSample.invalid
  else
    let wh := b.mfDistrib.sampleWm wo u
    let wi := reflect wo wh
    if ¬sameHemisphere wo wi ∨ dot wo wh ≤ 0 then BSDFSample.invalid
    else
      let pdf := b.mfDistrib.pdfWm wo wh / (4 * dot wo wh)
      let cosTheta_o := absCosTheta wo
      let cosTheta_i := absCosTheta wi
      if cosTheta_i = 0 ∨ cosTheta_o = 0 then BSDFSample.invalid
      else
        let frCosTheta_i := |dot wi (faceForward wh n001)|
        let F := E.frConductor frCosTheta_i b.eta b.k
        let fv := (F.scale (b.mfDistrib.D wh * b.mfDistrib.G wo wi)).divQ
          (4 * cosTheta_i * cosTheta_o)
        ⟨fv, wi, pdf, BxDFFlags.glossyReflection⟩

end ConductorBxDF

/-- The closed set of fully implemented scattering-distribution variants,
dispatched as a tagged union (`BxDFHandle`). -/
inductive BxDFVariant where
  | idealDiffuse (b : IdealDiffuseBxDF)
  | diffuse (b : DiffuseBxDF)
  | dielectricInterface (b : DielectricInterfaceBxDF)
  | thinDielectric (b : ThinDielectricBxDF)
  | conductor (b : ConductorBxDF)

/-- `BxDFHandle::Sample_f`: tagged-union dispatch of `Sample_f`. -/
def BxDFVariant.Sample_f (E : ExternalFns) : BxDFVariant → Vec3 → ℚ → Point2 →
    TransportMode → ReflTrans → BSDFSample
  | .idealDiffuse b, wo, uc, u, mode, fl => b.Sample_f E wo uc u mode fl
  | .diffuse b, wo, uc, u, mode, fl => b.Sample_f E wo uc u mode fl
  | .dielectricInterface b, wo, uc, u, mode, fl => b.Sample_f E wo uc u mode fl
  | .thinDielectric b, wo, uc, u, mode, fl => b.Sample_f E wo uc u mode fl
  | .conductor b, wo, uc, u, mode, fl => b.Sample_f E wo uc u mode fl

/-- The child-distribution interface through which the layered evaluator
consumes its top and bottom interfaces (the `TopOrBottomBxDF` dispatch over
the four shared operations plus `Flags`). -/
structure BxDFI where
  f : Vec3 → Vec3 → TransportMode → SampledSpectrum
  sample_f : Vec3 → ℚ → Point2 → TransportMode → ReflTrans → BSDFSample
  pdf : Vec3 → Vec3 → TransportMode → ReflTrans → ℚ
  flags : BxDFFlags

/-- `LayeredBxDF`: top and bottom child distributions separated by a slab.
The instantiations declared in the source have `SupportAttenuation = false`,
so the medium-scattering branch of the walks is compiled out and the phase
function and albedo are never consulted. -/
structure LayeredBxDF where
  top : BxDFI
  bottom : BxDFI
  thickness : ℚ
  g : ℚ
  albedo : SampledSpectrum
  maxDepth : ℕ
  nSamples : ℕ
  twoSided : Bool

/-- `LayeredBxDF` constructor: the stored thickness is the maximum of the
argument and the smallest positive `Float`. -/
def LayeredBxDF.ctor (top bottom : BxDFI) (thickness : ℚ)
    (albedo : SampledSpectrum) (g : ℚ) (maxDepth nSamples : ℕ)
    (twoSided : Bool) : LayeredBxDF :=
  { top := top, bottom := bottom, thickness := max thickness floatMin,
    g := g, albedo := albedo, maxDepth := maxDepth, nSamples := nSamples,
    twoSided := twoSided }

/-- `LayeredBxDF::Tr`: slab transmittance along `w`; `expF` stands for the
external `std::exp`. -/
def LayeredBxDF.Tr (expF : ℚ → ℚ) (dz : ℚ) (w : Vec3) : ℚ :=
  if |dz| ≤ floatMin then 1 else expF (-|dz| / absCosTheta w)

/-- The Russian-roulette step of the random walk in `LayeredBxDF::f`:
applied only past bounce 3 and when the throughput's maximum component is
below 0.25; kills with probability `max(0, 1 - maxComponent)` and rescales
survivors by `1/(1-q)`. `none` means the walk is terminated. -/
def layeredRRf (depth : ℕ) (beta : SampledSpectrum) (uv : ℚ) :
    Option SampledSpectrum :=
  if 3 < depth ∧ beta.maxComponent < 0.25 then
    let q := max 0 (1 - beta.maxComponent)
    if uv < q then none else some (beta.divQ (1 - q))
  else some beta

/-- The Russian-roulette step of the walk in `LayeredBxDF::Sample_f`:
the throughput judged is `f.maxComponent / pdf`; survivors keep `f` and have
their accumulated `pdf` multiplied by `1-q`. `none` means an invalid
sample is returned. -/
def layeredRRsample (depth : ℕ) (fv : SampledSpectrum) (pdf : ℚ) (uv : ℚ) :
    Option ℚ :=
  if 3 < depth ∧ fv.maxComponent / pdf < 0.25 then
    let q := max 0 (1 - fv.maxComponent / pdf)
    if uv < q then none else some (pdf * (1 - q))
  else some pdf

/-- The roulette step as claim C3 words it: applied at every walk state with
bounce counter greater than 3, with no throughput threshold. -/
def layeredRRfClaim (depth : ℕ) (beta : SampledSpectrum) (uv : ℚ) :
    Option SampledSpectrum :=
  if 3 < depth then
    let q := max 0 (1 - beta.maxComponent)
    if uv < q then none else some (beta.divQ (1 - q))
  else some beta

/-- State of the internal random walk of `LayeredBxDF::f`: the running
estimate `fAcc`, path throughput `beta`, current direction `w`, current
depth coordinate `z` and the RNG draw counter `k`. -/
structure LayeredWalkSt where
  fAcc : SampledSpectrum
  beta : SampledSpectrum
  w : Vec3
  z : ℚ
  k : ℕ

/-- The depth-bounded random walk of `LayeredBxDF::f` (instantiations with
`SupportAttenuation = false`): roulette, advance to the other boundary with
slab transmittance, then either reflect off the exit interface or scatter at
the non-exit interface with the two MIS-weighted NEE contributions. -/
def layeredFWalk (expF : ℚ → ℚ) (u : ℕ → ℚ) (exitI nonExit : BxDFI)
    (wi : Vec3) (mode : TransportMode) (thickness exitZ : ℚ) (wisPdf : ℚ)
    (wisWi : Vec3) (betaExit : SampledSpectrum) :
    ℕ → ℕ → LayeredWalkSt → LayeredWalkSt
  | 0, _, st => st
  | n + 1, d, st =>
    let k1 := if 3 < d ∧ st.beta.maxComponent < 0.25 then st.k + 1 else st.k
    match layeredRRf d st.beta (u st.k) with
    | none => { st with k := k1 }
    | some beta1 =>
      let z1 := if st.z = thickness then 0 else thickness
      let beta2 := beta1.scale (LayeredBxDF.Tr expF thickness st.w)
      if z1 = exitZ then
        let bs := exitI.sample_f (-st.w) (u k1) ⟨u (k1 + 1), u (k1 + 2)⟩ mode
          ReflTrans.reflOnly
        if ¬bs.isValid ∨ bs.pdf = 0 ∨ bs.wi.z = 0 then
          { st with beta := beta2, z := z1, k := k1 + 3 }
        else
          layeredFWalk expF u exitI nonExit wi mode thickness exitZ wisPdf
            wisWi betaExit n (d + 1)
            ⟨st.fAcc, (beta2 * bs.f).scale (absCosTheta bs.wi / bs.pdf),
             bs.wi, z1, k1 + 3⟩
      else
        let fAcc1 := if ¬nonExit.flags.specular then
            let wt := if ¬exitI.flags.specular then
                powerHeuristic 1 wisPdf 1
                  (nonExit.pdf (-st.w) (-wisWi) mode ReflTrans.all)
              else 1
            st.fAcc + ((beta2 * nonExit.f (-st.w) (-wisWi) mode).scale
              (absCosTheta wisWi * wt * LayeredBxDF.Tr expF thickness wisWi))
              * betaExit
          else st.fAcc
        let bs := nonExit.sample_f (-st.w) (u k1) ⟨u (k1 + 1), u (k1 + 2)⟩
          mode ReflTrans.reflOnly
        if ¬bs.isValid ∨ bs.wi.z = 0 then
          { st with fAcc := fAcc1, beta := beta2, z := z1, k := k1 + 3 }
        else
          let beta3 := (beta2 * bs.f).scale (absCosTheta bs.wi / bs.pdf)
          let fAcc2 := if ¬exitI.flags.specular then
              let fExit := exitI.f (-bs.wi) wi mode
              if fExit ≠ 0 then
                let wt := if ¬nonExit.flags.specular then
                    powerHeuristic 1 bs.pdf 1
                      (exitI.pdf (-bs.wi) wi mode ReflTrans.transOnly)
                  else 1
                fAcc1 + (beta3.scale (LayeredBxDF.Tr expF thickness bs.wi))
                  * (fExit.scale wt)
              else fAcc1
            else fAcc1
          layeredFWalk expF u exitI nonExit wi mode thickness exitZ wisPdf
            wisWi betaExit n (d + 1) ⟨fAcc2, beta3, bs.wi, z1, k1 + 3⟩

/-- One `nSamples` iteration of `LayeredBxDF::f`: sample a transmission
through the entrance interface, reciprocally pre-sample the exit connection
from `wi`, then run the internal walk; returns the estimate contribution and
the advanced RNG counter. -/
def layeredFSample (expF : ℚ → ℚ) (u : ℕ → ℚ) (enter exitI nonExit : BxDFI)
    (wo wi : Vec3) (mode : TransportMode) (thickness exitZ : ℚ)
    (enteredTop : Bool) (maxDepth : ℕ) (k : ℕ) : SampledSpectrum × ℕ :=
  let wos := enter.sample_f wo (u k) ⟨u (k + 1), u (k + 2)⟩ mode
    ReflTrans.transOnly
  if ¬wos.isValid ∨ wos.wi.z = 0 then (0, k + 3)
  else
    let wis := exitI.sample_f wi (u (k + 3)) ⟨u (k + 4), u (k + 5)⟩
      (flipMode mode) ReflTrans.transOnly
    if ¬wis.isValid ∨ wis.wi.z = 0 then (0, k + 6)
    else
      let st0 : LayeredWalkSt :=
        ⟨0, wos.f.scale (absCosTheta wos.wi / wos.pdf), wos.wi,
         if enteredTop then thickness else 0, k + 6⟩
      let stF := layeredFWalk expF u exitI nonExit wi mode thickness exitZ
        wis.pdf wis.wi (wis.f.divQ wis.pdf) maxDepth 0 st0
      (stF.fAcc, stF.k)

/-- The `nSamples` loop of `LayeredBxDF::f`, accumulating into `acc`. -/
def layeredFLoop (expF : ℚ → ℚ) (u : ℕ → ℚ) (enter exitI nonExit : BxDFI)
    (wo wi : Vec3) (mode : TransportMode) (thickness exitZ : ℚ)
    (enteredTop : Bool) (maxDepth : ℕ) :
    ℕ → ℕ → SampledSpectrum → SampledSpectrum
  | 0, _, acc => acc
  | s + 1, k, acc =>
    let r := layeredFSample expF u enter exitI nonExit wo wi mode thickness
      exitZ enteredTop maxDepth k
    layeredFLoop expF u enter exitI nonExit wo wi mode thickness exitZ
      enteredTop maxDepth s r.2 (acc + r.1)

/-- `LayeredBxDF::f`: two-sided canonicalization, direct reflection at the
entrance interface, then `nSamples` stochastic walk estimates averaged at
the end.  The internal RNG stream is derived from the global seed and the
(canonicalized) query directions through `mkStream`, which models the
counter-based generator seeded with `Hash(seed, wo)` and `Hash(wi)`; each
draw is clamped to `OneMinusEpsilon`. -/
def LayeredBxDF.f (expF : ℚ → ℚ) (mkStream : ℕ → Vec3 → Vec3 → ℕ → ℚ)
    (seed : ℕ) (lb : LayeredBxDF) (wo0 wi0 : Vec3) (mode : TransportMode) :
    SampledSpectrum :=
  let flip := lb.twoSided && decide (wo0.z < 0)
  let wo := if flip then -wo0 else wo0
  let wi := if flip then -wi0 else wi0
  let sh : Bool := decide (sameHemisphere wo wi)
  let enteredTop : Bool := decide (0 < wo.z)
  let enter := if enteredTop then lb.top else lb.bottom
  let exitI := if sh != enteredTop then lb.bottom else lb.top
  let nonExit := if sh != enteredTop then lb.top else lb.bottom
  let exitZ : ℚ := if sh != enteredTop then 0 else lb.thickness
  let f0 := if sh then (enter.f wo wi mode).scale (lb.nSamples : ℚ) else 0
  let u := fun k => min (mkStream seed wo wi k) oneMinusEpsilonF
  let total := layeredFLoop expF u enter exitI nonExit wo wi mode lb.thickness
    exitZ enteredTop lb.maxDepth lb.nSamples 0 f0
  total.divQ (lb.nSamples : ℚ)

/-- The depth-bounded random walk of `LayeredBxDF::Sample_f`
(`SupportAttenuation = false`): roulette on `f.maxComponent/pdf`, advance to
the other boundary with transmittance, sample the interface there, and
return the sample when the walk leaves the layers. -/
def layeredSampleWalk (expF : ℚ → ℚ) (u : ℕ → ℚ) (top bottom : BxDFI)
    (wo : Vec3) (mode : TransportMode) (thickness : ℚ) (flipWi : Bool) :
    ℕ → ℕ → SampledSpectrum → ℚ → Vec3 → ℚ → ℕ → BSDFSample
  | 0, _, _, _, _, _, _ => BSDFSample.invalid
  | n + 1, d, fv, pdf, w, z, k =>
    let k1 := if 3 < d ∧ fv.maxComponent / pdf < 0.25 then k + 1 else k
    match layeredRRsample d fv pdf (u k) with
    | none => BSDFSample.invalid
    | some pdf1 =>
      if w.z = 0 then BSDFSample.invalid
      else
        let z1 := if z = thickness then 0 else thickness
        let fv1 := fv.scale (LayeredBxDF.Tr expF thickness w)
        let interfaceB := if z1 = 0 then bottom else top
        let bs := interfaceB.sample_f (-w) (u k1) ⟨u (k1 + 1), u (k1 + 2)⟩
          mode ReflTrans.all
        if ¬bs.isValid ∨ bs.wi.z = 0 then BSDFSample.invalid
        else
          let fv2 := fv1 * bs.f
          let pdf2 := pdf1 * bs.pdf
          if bs.IsTransmission then
            let flags := if sameHemisphere wo bs.wi then
                BxDFFlags.glossyReflection else BxDFFlags.glossyTransmission
            let wiOut := if flipWi then -bs.wi else bs.wi
            ⟨fv2, wiOut, pdf2, flags⟩
          else
            layeredSampleWalk expF u top bottom wo mode thickness flipWi n
              (d + 1) (fv2.scale (absCosTheta bs.wi)) pdf2 bs.wi z1 (k1 + 3)

/-- `LayeredBxDF::Sample_f`: sample the entrance interface; reflections
return immediately (with the two-sided flip undone), transmissions start the
internal walk.  Its RNG stream is seeded from `Hash(seed, wo)` and
`Hash(uc, u)`. -/
def LayeredBxDF.Sample_f (expF : ℚ → ℚ)
    (mkStream2 : ℕ → Vec3 → ℚ → Point2 → ℕ → ℚ) (seed : ℕ) (lb : LayeredBxDF)
    (wo0 : Vec3) (uc : ℚ) (uu : Point2) (mode : TransportMode) : BSDFSample :=
  let flipWi := lb.twoSided && decide (wo0.z < 0)
  let wo := if flipWi then -wo0 else wo0
  let enteredTop : Bool := decide (0 < wo.z)
  let bs := if enteredTop then lb.top.sample_f wo uc uu mode ReflTrans.all
    else lb.bottom.sample_f wo uc uu mode ReflTrans.all
  if ¬bs.isValid then BSDFSample.invalid
  else if bs.IsReflection then
    if flipWi then { bs with wi := -bs.wi } else bs
  else
    let u := fun k => min (mkStream2 seed wo uc uu k) oneMinusEpsilonF
    layeredSampleWalk expF u lb.top lb.bottom wo mode lb.thickness flipWi
      lb.maxDepth 0 (bs.f.scale (absCosTheta bs.wi)) bs.pdf bs.wi
      (if enteredTop then lb.thickness else 0) 0

/-- One `nSamples` iteration of the stochastic estimator in
`LayeredBxDF::PDF`: the TRT estimate for same-hemisphere pairs and the TT
estimate for opposite-hemisphere pairs; returns the contribution and the
advanced RNG counter. -/
def layeredPDFSample (u : ℕ → ℚ) (top bottom : BxDFI) (enteredTop : Bool)
    (wo wi : Vec3) (mode : TransportMode) (k : ℕ) : ℚ × ℕ :=
  if sameHemisphere wo wi then
    let rI := if enteredTop then bottom else top
    let tI := if enteredTop then top else bottom
    let wos := tI.sample_f wo (u k) ⟨u (k + 1), u (k + 2)⟩ mode ReflTrans.all
    if ¬wos.isValid ∨ wos.wi.z = 0 ∨ wos.IsReflection then
      (tI.pdf wo wi mode ReflTrans.all, k + 3)
    else
      let wis := tI.sample_f wi (u (k + 3)) ⟨u (k + 4), u (k + 5)⟩
        (flipMode mode) ReflTrans.all
      if ¬wis.isValid ∨ wis.wi.z = 0 ∨ wis.IsReflection then (0, k + 6)
      else (rI.pdf (-wos.wi) (-wis.wi) mode ReflTrans.all, k + 6)
  else
    let toI := if enteredTop then top else bottom
    let tiI := if enteredTop then bottom else top
    let wos := toI.sample_f wo (u k) ⟨u (k + 1), u (k + 2)⟩ mode ReflTrans.all
    if ¬wos.isValid ∨ wos.wi.z = 0 ∨ wos.IsReflection then (0, k + 3)
    else
      let wis := tiI.sample_f wi (u (k + 3)) ⟨u (k + 4), u (k + 5)⟩
        (flipMode mode) ReflTrans.all
      if ¬wis.isValid ∨ wis.wi.z = 0 ∨ wis.IsReflection then (0, k + 6)
      else if toI.flags.specular then
        (tiI.pdf (-wos.wi) wi mode ReflTrans.all, k + 6)
      else if tiI.flags.specular then
        (toI.pdf wo (-wis.wi) mode ReflTrans.all, k + 6)
      else ((toI.pdf wo (-wis.wi) mode ReflTrans.all +
             tiI.pdf (-wos.wi) wi mode ReflTrans.all) / 2, k + 6)

/-- The `nSamples` loop of `LayeredBxDF::PDF`, accumulating `pdfSum`. -/
def layeredPDFLoop (u : ℕ → ℚ) (top bottom : BxDFI) (enteredTop : Bool)
    (wo wi : Vec3) (mode : TransportMode) : ℕ → ℕ → ℚ → ℚ
  | 0, _, acc => acc
  | s + 1, k, acc =>
    let r := layeredPDFSample u top bottom enteredTop wo wi mode k
    layeredPDFLoop u top bottom enteredTop wo wi mode s r.2 (acc + r.1)

/-- `LayeredBxDF::PDF`: two-sided canonicalization, the deterministic
entrance-reflection density term, `nSamples` stochastic estimates, and the
final 0.9/0.1 mixture with the uniform-sphere density `1/(4*Pi)`. -/
def LayeredBxDF.PDF (mkStream : ℕ → Vec3 → Vec3 → ℕ → ℚ) (seed : ℕ)
    (lb : LayeredBxDF) (wo0 wi0 : Vec3) (mode : TransportMode) : ℚ :=
  let flip := lb.twoSided && decide (wo0.z < 0)
  let wo := if flip then -wo0 else wo0
  let wi := if flip then -wi0 else wi0
  let u := fun k => min (mkStream seed wo wi k) oneMinusEpsilonF
  let enteredTop : Bool := decide (0 < wo.z)
  let pdf0 : ℚ := if sameHemisphere wo wi then
      (lb.nSamples : ℚ) *
        (if enteredTop then lb.top.pdf wo wi mode ReflTrans.reflOnly
         else lb.bottom.pdf wo wi mode ReflTrans.reflOnly)
    else 0
  let pdfSum := layeredPDFLoop u lb.top lb.bottom enteredTop wo wi mode
    lb.nSamples 0 pdf0
  lerpQ 0.9 (1 / (4 * piF)) (pdfSum / (lb.nSamples : ℚ))

/-- Per-sample path state of `VolPathIntegrator::Li`: accumulated radiance
`L`, throughput `beta`, the current ray (direction and whether it travels
through a medium), the specular-bounce flag, the refraction scale factor
`etaScale`, and the bounce counter `depth` for the coming iteration. -/
structure PathState where
  L : RGBSpec
  beta : RGBSpec
  rayDir : Vec3
  rayMedium : Bool
  specularBounce : Bool
  etaScale : ℚ
  depth : ℕ
deriving DecidableEq, Repr

/-- Everything the external collaborators (scene intersection, medium
sampling, light sampling, the material system and the sampler) produce
during one iteration of the `Li` loop.  Fields irrelevant to the branch
actually taken are simply ignored by `liStep`. -/
structure BounceEvent where
  foundIntersection : Bool
  mediumTr : RGBSpec
  miValid : Bool
  LdMedium : RGBSpec
  phaseWi : Vec3
  phaseMedium : Bool
  Le : RGBSpec
  bsdfPresent : Bool
  nullMedium : Bool
  Ld : RGBSpec
  fS : RGBSpec
  wiS : Vec3
  absDotS : ℚ
  pdfS : ℚ
  specFlag : Bool
  transFlag : Bool
  bsdfEta : ℚ
  entering : Bool
  spawnMedium : Bool
  bssrdfPresent : Bool
  Sval : RGBSpec
  bssrdfPdf : ℚ
  Ld2 : RGBSpec
  f2 : RGBSpec
  wi2 : Vec3
  absDot2 : ℚ
  pdf2 : ℚ
  spec2 : Bool
  spawnMedium2 : Bool
  rrU : ℚ
deriving DecidableEq, Repr

/-- Outcome of one loop iteration: the path terminated returning `L`, or it
continues with the next state. -/
inductive StepResult where
  | done (L : RGBSpec)
  | next (s : PathState)
deriving DecidableEq, Repr

/-- The Russian-roulette block at the end of each `Li` iteration: judged on
`beta * etaScale`; fires only when the maximum channel is below
`rrThreshold` and `depth > 3`, terminating with probability
`q = max(0.05, 1 - maxChannel)` and rescaling survivors by `1/(1-q)`.
`none` means the path is terminated. -/
def volRR (rrThreshold : ℚ) (depth : ℕ) (beta : RGBSpec) (etaScale : ℚ)
    (u : ℚ) : Option RGBSpec :=
  let rrBeta := beta.scale etaScale
  if rrBeta.maxComponent < rrThreshold ∧ 3 < depth then
    let q := max 0.05 (1 - rrBeta.maxComponent)
    if u < q then none else some (beta.divQ (1 - q))
  else some beta

/-- One iteration of the loop in `VolPathIntegrator::Li`: medium sampling,
the medium- or surface-interaction branch (emission, termination tests, the
null-scattering free bounce, NEE, BSDF sampling, the `etaScale` update, the
subsurface block) and the closing Russian-roulette block. -/
def liStep (maxDepth : ℕ) (rrThreshold : ℚ) (st : PathState)
    (ev : BounceEvent) : StepResult :=
  let beta1 := if st.rayMedium then st.beta * ev.mediumTr else st.beta
  if beta1 = 0 then .done st.L
  else if st.rayMedium ∧ ev.miValid then
    -- interaction with a medium
    if maxDepth ≤ st.depth then .done st.L
    else
      let L1 := st.L + beta1 * ev.LdMedium
      match volRR rrThreshold st.depth beta1 st.etaScale ev.rrU with
      | none => .done L1
      | some b =>
        .next ⟨L1, b, ev.phaseWi, ev.phaseMedium, st.specularBounce,
               st.etaScale, st.depth + 1⟩
  else
    -- interaction with a surface (or escape)
    let L1 := if st.depth = 0 ∨ st.specularBounce then st.L + beta1 * ev.Le
      else st.L
    if ¬ev.foundIntersection ∨ maxDepth ≤ st.depth then .done L1
    else if ¬ev.bsdfPresent then
      -- free bounce: re-spawn along the unchanged direction, depth-- then ++
      .next ⟨L1, beta1, st.rayDir, ev.nullMedium, st.specularBounce,
             st.etaScale, st.depth⟩
    else
      let L2 := L1 + beta1 * ev.Ld
      if ev.fS = 0 ∨ ev.pdfS = 0 then .done L2
      else
        let beta2 := (beta1 * ev.fS).scale (ev.absDotS / ev.pdfS)
        let spec1 := ev.specFlag
        let eta1 := if ev.specFlag ∧ ev.transFlag then
            st.etaScale *
              (if ev.entering then ev.bsdfEta ^ 2 else 1 / ev.bsdfEta ^ 2)
          else st.etaScale
        if ev.bssrdfPresent ∧ ev.transFlag then
          if ev.Sval = 0 ∨ ev.bssrdfPdf = 0 then .done L2
          else
            let beta3 := beta2 * (ev.Sval.divQ ev.bssrdfPdf)
            let L3 := L2 + beta3 * ev.Ld2
            if ev.f2 = 0 ∨ ev.pdf2 = 0 then .done L3
            else
              let beta4 := (beta3 * ev.f2).scale (ev.absDot2 / ev.pdf2)
              match volRR rrThreshold st.depth beta4 eta1 ev.rrU with
              | none => .done L3
              | some b =>
                .next ⟨L3, b, ev.wi2, ev.spawnMedium2, ev.spec2, eta1,
                       st.depth + 1⟩
        else
          match volRR rrThreshold st.depth beta2 eta1 ev.rrU with
          | none => .done L2
          | some b =>
            .next ⟨L2, b, ev.wiS, ev.spawnMedium, spec1, eta1, st.depth + 1⟩

/-- The loop of `VolPathIntegrator::Li`, consuming one event per iteration;
an exhausted event list returns the radiance accumulated so far. -/
def liLoop (maxDepth : ℕ) (rrThreshold : ℚ) :
    List BounceEvent → PathState → RGBSpec
  | [], st => st.L
  | ev :: evs, st =>
    match liStep maxDepth rrThreshold st ev with
    | .done L => L
    | .next s => liLoop maxDepth rrThreshold evs s

/-- `VolPathIntegrator::Li`: runs the loop from the initial state
`L = 0`, `beta = 1`, `specularBounce = false`, `etaScale = 1`, `depth = 0`. -/
def Li (maxDepth : ℕ) (rrThreshold : ℚ) (rayDir : Vec3) (rayMedium : Bool)
    (evs : List BounceEvent) : RGBSpec :=
  liLoop maxDepth rrThreshold evs
    ⟨0, RGBSpec.ofQ 1, rayDir, rayMedium, false, 1, 0⟩

/-! ### Concrete helper instances used by witnesses and counterexamples -/

/-- A concrete external-function bundle; its cosine-hemisphere sampler
returns `(0,0,1)`, the value the real concentric mapping produces at the
centre sample `(1/2, 1/2)`. -/
def extZero : ExternalFns :=
  ⟨fun _ => ⟨0, 0, 1⟩, fun _ _ => 0, fun _ _ _ => 0, fun _ _ _ => none,
   fun _ => 0, fun _ _ => 0⟩

/-- A concrete microfacet capability (all-zero responses, non-specular). -/
def trZero : TrowbridgeReitzDistribution :=
  ⟨fun _ => 0, fun _ _ => 0, fun _ _ => 0, fun _ _ => ⟨0, 0, 1⟩, false⟩

/-- A concrete child-distribution interface with zero responses. -/
def bxdfiZero : BxDFI :=
  ⟨fun _ _ _ => 0, fun _ _ _ _ _ => BSDFSample.invalid, fun _ _ _ _ => 0,
   BxDFFlags.unset⟩

/-- A concrete layered composite built through the constructor. -/
def lbTriv : LayeredBxDF :=
  LayeredBxDF.ctor bxdfiZero bxdfiZero (1 / 100) 0 0 10 1 true

/-- A bounce event with every collaborator response zeroed out. -/
def evBase : BounceEvent :=
  ⟨false, 0, false, 0, ⟨0, 0, 0⟩, false, 0, false, false, 0, 0, ⟨0, 0, 0⟩, 0,
   0, false, false, 0, false, false, false, 0, 0, 0, 0, ⟨0, 0, 0⟩, 0, 0,
   false, false, 0⟩

theorem SampledSpectrum.zero_eq_mk : (0 : SampledSpectrum) = ⟨0, 0, 0, 0⟩ := rfl

theorem SampledSpectrum.mk_eq_zero_iff (a b c d : ℚ) :
    (SampledSpectrum.mk a b c d = 0) ↔ (a = 0 ∧ b = 0 ∧ c = 0 ∧ d = 0) := by
  rw [SampledSpectrum.zero_eq_mk, SampledSpectrum.mk.injEq]

theorem RGBSpec.rgb_zero_eq_mk : (0 : RGBSpec) = ⟨0, 0, 0⟩ := rfl

theorem RGBSpec.rgb_mk_eq_zero_iff (a b c : ℚ) :
    (RGBSpec.mk a b c = 0) ↔ (a = 0 ∧ b = 0 ∧ c = 0) := by
  rw [RGBSpec.rgb_zero_eq_mk, RGBSpec.mk.injEq]

theorem SampledSpectrum.maxComponent_zero :
    (0 : SampledSpectrum).maxComponent = 0 := by
  show ((SampledSpectrum.ofQ 0).maxComponent) = 0
  simp [SampledSpectrum.maxComponent, SampledSpectrum.ofQ]

/-! ### Claims -/

/-- C9: the `LayeredBxDF` constructor stores the slab thickness as the
maximum of the argument and the smallest positive `Float`, so every
constructed layered composite (whose operations all read this stored field)
carries a strictly positive thickness, for every constructor input including
zero or negative arguments. -/
theorem layered_ctor_thickness_positive (top bottom : BxDFI) (thickness : ℚ)
    (albedo : SampledSpectrum) (g : ℚ) (maxDepth nSamples : ℕ)
    (twoSided : Bool) :
    (LayeredBxDF.ctor top bottom thickness albedo g maxDepth nSamples
      twoSided).thickness = max thickness floatMin ∧
    0 < (LayeredBxDF.ctor top bottom thickness albedo g maxDepth nSamples
      twoSided).thickness := by
  refine ⟨rfl, ?_⟩
  have h : (0 : ℚ) < floatMin := by norm_num [floatMin]
  calc (0 : ℚ) < floatMin := h
    _ ≤ max thickness floatMin := le_max_right _ _

/-- C10: the `DielectricInterfaceBxDF` constructor replaces an `eta`
argument exactly equal to 1 with 1.001 and stores any other argument
unchanged, so the stored index ratio is never exactly 1. -/
theorem dielectric_ctor_eta (eta : ℚ) (mf : TrowbridgeReitzDistribution) :
    (DielectricInterfaceBxDF.ctor 1 mf).eta = 1.001 ∧
    (eta ≠ 1 → (DielectricInterfaceBxDF.ctor eta mf).eta = eta) ∧
    (DielectricInterfaceBxDF.ctor eta mf).eta ≠ 1 := by
  refine ⟨by norm_num [DielectricInterfaceBxDF.ctor], ?_, ?_⟩
  · intro h
    simp [DielectricInterfaceBxDF.ctor, h]
  · by_cases h : eta = 1
    · simp only [DielectricInterfaceBxDF.ctor, h, if_pos rfl]
      norm_num
    · simp [DielectricInterfaceBxDF.ctor, h]

/-- C10 witness: concrete evaluation at `eta = 3/2` (and 1). -/
theorem dielectric_ctor_eta_witness :
    (DielectricInterfaceBxDF.ctor 1 trZero).eta = 1.001 ∧
    (DielectricInterfaceBxDF.ctor (3 / 2) trZero).eta = 3 / 2 ∧
    (DielectricInterfaceBxDF.ctor (3 / 2) trZero).eta ≠ 1 :=
  ⟨(dielectric_ctor_eta (3 / 2) trZero).1,
   (dielectric_ctor_eta (3 / 2) trZero).2.1 (by norm_num),
   (dielectric_ctor_eta (3 / 2) trZero).2.2⟩

/-- C5: across the tagged-union dispatch over every implemented scattering
distribution variant, a sample whose validity bit is set has a strictly
positive pdf and a nonzero spectral f. -/
theorem sample_valid_pdf_pos_f_nonzero (E : ExternalFns) (v : BxDFVariant)
    (wo : Vec3) (uc : ℚ) (u : Point2) (mode : TransportMode) (fl : ReflTrans)
    (h : (BxDFVariant.Sample_f E v wo uc u mode fl).isValid = true) :
    0 < (BxDFVariant.Sample_f E v wo uc u mode fl).pdf ∧
    (BxDFVariant.Sample_f E v wo uc u mode fl).f ≠ 0 := by
  unfold BSDFSample.isValid at h
  simp only [Bool.and_eq_true, decide_eq_true_eq] at h
  exact ⟨h.2, h.1⟩

/-- C5 witness: a concrete valid diffuse sample. -/
theorem sample_valid_pdf_pos_f_nonzero_witness :
    0 < (BxDFVariant.Sample_f extZero
      (.idealDiffuse ⟨SampledSpectrum.ofQ 1⟩) ⟨0, 0, 1⟩ 0 ⟨1 / 2, 1 / 2⟩
      .Radiance ReflTrans.all).pdf ∧
    (BxDFVariant.Sample_f extZero
      (.idealDiffuse ⟨SampledSpectrum.ofQ 1⟩) ⟨0, 0, 1⟩ 0 ⟨1 / 2, 1 / 2⟩
      .Radiance ReflTrans.all).f ≠ 0 :=
  sample_valid_pdf_pos_f_nonzero extZero _ _ _ _ _ _ (by
    show (IdealDiffuseBxDF.Sample_f extZero ⟨SampledSpectrum.ofQ 1⟩ ⟨0, 0, 1⟩
      0 ⟨1 / 2, 1 / 2⟩ .Radiance ReflTrans.all).isValid = true
    norm_num [IdealDiffuseBxDF.Sample_f, IdealDiffuseBxDF.f, extZero,
      ReflTrans.all, sameHemisphere, absCosTheta, BSDFSample.isValid,
      SampledSpectrum.scale, SampledSpectrum.ofQ, SampledSpectrum.mk_eq_zero_iff,
      invPiF])

/-- C3 counterexample: at bounce 4 with throughput `1/2` (maximum component
not below 0.25) and roulette draw `3/10`, the code's walk applies no
roulette at all, while the claim's rule (roulette at every bounce past 3)
would kill the path with probability `1/2`, in particular at this draw. -/
theorem layeredRR_claim_counterexample :
    layeredRRf 4 (SampledSpectrum.ofQ (1 / 2)) (3 / 10) =
      some (SampledSpectrum.ofQ (1 / 2)) ∧
    layeredRRfClaim 4 (SampledSpectrum.ofQ (1 / 2)) (3 / 10) = none ∧
    layeredRRf 4 (SampledSpectrum.ofQ (1 / 2)) (3 / 10) ≠
      layeredRRfClaim 4 (SampledSpectrum.ofQ (1 / 2)) (3 / 10) := by
  refine ⟨?_, ?_, ?_⟩ <;>
    · norm_num [layeredRRf, layeredRRfClaim, SampledSpectrum.maxComponent,
        SampledSpectrum.ofQ]
      try simp

/-- C3 amended: in the internal walks of `LayeredBxDF::f` and
`LayeredBxDF::Sample_f`, Russian roulette fires exactly at walk states with
bounce counter greater than 3 whose throughput's maximum component (for the
sampling walk, `f.maxComponent/pdf`) is below 0.25; it kills with
probability `q = max(0, 1 - throughput)` (terminating exactly when the
roulette draw falls below `q`) and on survival rescales by `1/(1-q)` (the
sampling walk scales the accumulated pdf by `1-q`); no roulette is applied
at bounce 3 or earlier or when the throughput is at least 0.25. -/
theorem layeredRR_threshold_characterization :
    (∀ (depth : ℕ) (beta : SampledSpectrum) (uv : ℚ), 3 < depth →
      beta.maxComponent < 0.25 →
      ((layeredRRf depth beta uv = none ↔
        uv < max 0 (1 - beta.maxComponent)) ∧
      (¬uv < max 0 (1 - beta.maxComponent) →
        layeredRRf depth beta uv =
          some (beta.divQ (1 - max 0 (1 - beta.maxComponent)))))) ∧
    (∀ (depth : ℕ) (beta : SampledSpectrum) (uv : ℚ),
      depth ≤ 3 ∨ 0.25 ≤ beta.maxComponent →
      layeredRRf depth beta uv = some beta) ∧
    (∀ (depth : ℕ) (fv : SampledSpectrum) (pdf uv : ℚ), 3 < depth →
      fv.maxComponent / pdf < 0.25 →
      ((layeredRRsample depth fv pdf uv = none ↔
        uv < max 0 (1 - fv.maxComponent / pdf)) ∧
      (¬uv < max 0 (1 - fv.maxComponent / pdf) →
        layeredRRsample depth fv pdf uv =
          some (pdf * (1 - max 0 (1 - fv.maxComponent / pdf)))))) ∧
    (∀ (depth : ℕ) (fv : SampledSpectrum) (pdf uv : ℚ),
      depth ≤ 3 ∨ 0.25 ≤ fv.maxComponent / pdf →
      layeredRRsample depth fv pdf uv = some pdf) := by
  refine ⟨?_, ?_, ?_, ?_⟩
  · intro depth beta uv h1 h2
    simp only [layeredRRf, if_pos (And.intro h1 h2)]
    constructor
    · by_cases h : uv < max 0 (1 - beta.maxComponent) <;> simp [h]
    · intro h
      rw [if_neg h]
  · intro depth beta uv h
    simp only [layeredRRf]
    rw [if_neg]
    rintro ⟨h1, h2⟩
    rcases h with h | h
    · omega
    · exact absurd h2 (not_lt.mpr h)
  · intro depth fv pdf uv h1 h2
    simp only [layeredRRsample, if_pos (And.intro h1 h2)]
    constructor
    · by_cases h : uv < max 0 (1 - fv.maxComponent / pdf) <;> simp [h]
    · intro h
      rw [if_neg h]
  · intro depth fv pdf uv h
    simp only [layeredRRsample]
    rw [if_neg]
    rintro ⟨h1, h2⟩
    rcases h with h | h
    · omega
    · exact absurd h2 (not_lt.mpr h)

/-- C3 witness: the four roulette regimes at concrete inputs. -/
theorem layeredRR_threshold_characterization_witness :
    layeredRRf 5 (SampledSpectrum.ofQ (1 / 10)) 0 = none ∧
    layeredRRf 2 (SampledSpectrum.ofQ (1 / 10)) 0 =
      some (SampledSpectrum.ofQ (1 / 10)) ∧
    layeredRRsample 5 (SampledSpectrum.ofQ (1 / 10)) 1 0 = none ∧
    layeredRRsample 2 (SampledSpectrum.ofQ (1 / 10)) 1 0 = some 1 := by
  have hmc : (SampledSpectrum.ofQ (1 / 10)).maxComponent = 1 / 10 := by
    norm_num [SampledSpectrum.maxComponent, SampledSpectrum.ofQ]
  refine ⟨?_, ?_, ?_, ?_⟩
  · exact (layeredRR_threshold_characterization.1 5 _ 0 (by norm_num)
      (by rw [hmc]; norm_num)).1.mpr (by rw [hmc]; norm_num)
  · exact layeredRR_threshold_characterization.2.1 2 _ 0
      (Or.inl (by norm_num))
  · exact (layeredRR_threshold_characterization.2.2.1 5 _ 1 0 (by norm_num)
      (by rw [hmc]; norm_num)).1.mpr (by rw [hmc]; norm_num)
  · exact layeredRR_threshold_characterization.2.2.2 2 _ 1 0
      (Or.inl (by norm_num))

/-- C4: the Russian-roulette block closing each `Li` bounce fires exactly
when `depth > 3` and the maximum channel of `beta * etaScale` is below
`rrThreshold`; it then terminates exactly when the roulette draw falls below
`q = max(0.05, 1 - maxChannel)` and otherwise divides `beta` by `1-q`; on
other bounces the path is never terminated by roulette and `beta` is left
unrescaled. -/
theorem volpath_rr_characterization (rrThreshold : ℚ) (depth : ℕ)
    (beta : RGBSpec) (etaScale u : ℚ) :
    (3 < depth → (beta.scale etaScale).maxComponent < rrThreshold →
      ((volRR rrThreshold depth beta etaScale u = none ↔
        u < max 0.05 (1 - (beta.scale etaScale).maxComponent)) ∧
      (¬u < max 0.05 (1 - (beta.scale etaScale).maxComponent) →
        volRR rrThreshold depth beta etaScale u =
          some (beta.divQ
            (1 - max 0.05 (1 - (beta.scale etaScale).maxComponent)))))) ∧
    (depth ≤ 3 ∨ rrThreshold ≤ (beta.scale etaScale).maxComponent →
      volRR rrThreshold depth beta etaScale u = some beta) := by
  constructor
  · intro h1 h2
    simp only [volRR, if_pos (And.intro h2 h1)]
    constructor
    · by_cases h : u < max 0.05 (1 - (beta.scale etaScale).maxComponent) <;>
        simp [h]
    · intro h
      rw [if_neg h]
  · intro h
    simp only [volRR]
    rw [if_neg]
    rintro ⟨h1, h2⟩
    rcases h with h | h
    · omega
    · exact absurd h1 (not_lt.mpr h)

/-- C4 witness: both roulette regimes at concrete inputs. -/
theorem volpath_rr_characterization_witness :
    volRR 1 5 (RGBSpec.ofQ (1 / 10)) 1 0 = none ∧
    volRR 1 2 (RGBSpec.ofQ (1 / 10)) 1 0 = some (RGBSpec.ofQ (1 / 10)) := by
  have hmc : ((RGBSpec.ofQ (1 / 10)).scale 1).maxComponent = 1 / 10 := by
    norm_num [RGBSpec.maxComponent, RGBSpec.ofQ, RGBSpec.scale]
  constructor
  · exact ((volpath_rr_characterization 1 5 _ 1 0).1 (by norm_num)
      (by rw [hmc]; norm_num)).1.mpr (by rw [hmc]; norm_num)
  · exact (volpath_rr_characterization 1 2 _ 1 0).2 (Or.inl (by norm_num))

/-- C8: the layered evaluator's `f` and `PDF` draw every random number from
a stream derived only from the global seed and the query directions; two
invocations with identical `(wo, wi, mode)` whose ambient RNG environments
(`mk1`, `mk2`) agree on that seed's slice produce identical spectral values
and identical densities, so logically independent calls for the same query
are reproducible. -/
theorem layered_query_seeded_reproducible (expF : ℚ → ℚ)
    (mk1 mk2 : ℕ → Vec3 → Vec3 → ℕ → ℚ) (seed : ℕ) (lb : LayeredBxDF)
    (wo wi : Vec3) (mode : TransportMode) (h : mk1 seed = mk2 seed) :
    LayeredBxDF.f expF mk1 seed lb wo wi mode =
      LayeredBxDF.f expF mk2 seed lb wo wi mode ∧
    LayeredBxDF.PDF mk1 seed lb wo wi mode =
      LayeredBxDF.PDF mk2 seed lb wo wi mode := by
  constructor
  · simp only [LayeredBxDF.f, h]
  · simp only [LayeredBxDF.PDF, h]

/-- C8 witness: concrete agreement of two invocations. -/
theorem layered_query_seeded_reproducible_witness :
    LayeredBxDF.f (fun _ => 0) (fun _ _ _ _ => 0) 0 lbTriv ⟨0, 0, 1⟩
        ⟨0, 0, 1⟩ .Radiance =
      LayeredBxDF.f (fun _ => 0) (fun _ _ _ _ => 0) 0 lbTriv ⟨0, 0, 1⟩
        ⟨0, 0, 1⟩ .Radiance ∧
    LayeredBxDF.PDF (fun _ _ _ _ => 0) 0 lbTriv ⟨0, 0, 1⟩ ⟨0, 0, 1⟩
        .Radiance =
      LayeredBxDF.PDF (fun _ _ _ _ => 0) 0 lbTriv ⟨0, 0, 1⟩ ⟨0, 0, 1⟩
        .Radiance :=
  layered_query_seeded_reproducible (fun _ => 0) _ _ 0 lbTriv _ _ _ rfl

theorem layeredPDFSample_nonneg (u : ℕ → ℚ) (top bottom : BxDFI)
    (enteredTop : Bool) (wo wi : Vec3) (mode : TransportMode) (k : ℕ)
    (ht : ∀ a b m fl, 0 ≤ top.pdf a b m fl)
    (hb : ∀ a b m fl, 0 ≤ bottom.pdf a b m fl) :
    0 ≤ (layeredPDFSample u top bottom enteredTop wo wi mode k).1 := by
  simp only [layeredPDFSample]
  split_ifs <;>
    first
      | exact le_refl 0
      | exact ht _ _ _ _
      | exact hb _ _ _ _
      | exact div_nonneg (add_nonneg (ht _ _ _ _) (hb _ _ _ _)) (by norm_num)
      | exact div_nonneg (add_nonneg (hb _ _ _ _) (ht _ _ _ _)) (by norm_num)

theorem layeredPDFLoop_nonneg (u : ℕ → ℚ) (top bottom : BxDFI)
    (enteredTop : Bool) (wo wi : Vec3) (mode : TransportMode)
    (ht : ∀ a b m fl, 0 ≤ top.pdf a b m fl)
    (hb : ∀ a b m fl, 0 ≤ bottom.pdf a b m fl) :
    ∀ (n k : ℕ) (acc : ℚ), 0 ≤ acc →
      0 ≤ layeredPDFLoop u top bottom enteredTop wo wi mode n k acc := by
  intro n
  induction n with
  | zero =>
    intro k acc h
    simpa [layeredPDFLoop] using h
  | succ m ih =>
    intro k acc h
    simp only [layeredPDFLoop]
    exact ih _ _ (add_nonneg h
      (layeredPDFSample_nonneg u top bottom enteredTop wo wi mode k ht hb))

/-- C1: for every direction pair and transport mode (and any child
distributions whose densities are non-negative), `LayeredBxDF::PDF` returns
`0.9` times the average of its per-sample stochastic PDF estimates plus
`0.1` times the uniform-sphere density `1/(4*Pi)`; the average is
non-negative, so the returned density is at least `0.1/(4*Pi)` and hence
strictly positive. -/
theorem layeredPDF_mixture_positive (mk : ℕ → Vec3 → Vec3 → ℕ → ℚ)
    (seed : ℕ) (lb : LayeredBxDF) (wo wi : Vec3) (mode : TransportMode)
    (ht : ∀ a b m fl, 0 ≤ lb.top.pdf a b m fl)
    (hb : ∀ a b m fl, 0 ≤ lb.bottom.pdf a b m fl) :
    ∃ est : ℚ, 0 ≤ est ∧
      LayeredBxDF.PDF mk seed lb wo wi mode =
        9 / 10 * est + 1 / 10 * (1 / (4 * piF)) ∧
      1 / 10 * (1 / (4 * piF)) ≤ LayeredBxDF.PDF mk seed lb wo wi mode ∧
      0 < LayeredBxDF.PDF mk seed lb wo wi mode := by
  have key : ∀ x : ℚ, 0 ≤ x →
      ∃ est : ℚ, 0 ≤ est ∧
        lerpQ 0.9 (1 / (4 * piF)) x =
          9 / 10 * est + 1 / 10 * (1 / (4 * piF)) ∧
        1 / 10 * (1 / (4 * piF)) ≤ lerpQ 0.9 (1 / (4 * piF)) x ∧
        0 < lerpQ 0.9 (1 / (4 * piF)) x := by
    intro x hx
    have hpi : (0 : ℚ) < 1 / 10 * (1 / (4 * piF)) := by norm_num [piF]
    have heq : lerpQ 0.9 (1 / (4 * piF)) x =
        9 / 10 * x + 1 / 10 * (1 / (4 * piF)) := by
      unfold lerpQ
      norm_num
      ring
    have h9 : 0 ≤ (9 : ℚ) / 10 * x := by positivity
    refine ⟨x, hx, heq, ?_, ?_⟩
    · rw [heq]; linarith
    · rw [heq]; linarith
  simp only [LayeredBxDF.PDF]
  apply key
  apply div_nonneg ?_ (Nat.cast_nonneg _)
  apply layeredPDFLoop_nonneg _ _ _ _ _ _ _ ht hb
  split_ifs <;>
    first
      | exact le_refl 0
      | exact mul_nonneg (Nat.cast_nonneg _) (ht _ _ _ _)
      | exact mul_nonneg (Nat.cast_nonneg _) (hb _ _ _ _)

/-- C1 witness: the mixture bound at a concrete layered composite with
zero-density children. -/
theorem layeredPDF_mixture_positive_witness :
    ∃ est : ℚ, 0 ≤ est ∧
      LayeredBxDF.PDF (fun _ _ _ _ => 0) 0 lbTriv ⟨0, 0, 1⟩ ⟨0, 0, -1⟩
          .Radiance =
        9 / 10 * est + 1 / 10 * (1 / (4 * piF)) ∧
      1 / 10 * (1 / (4 * piF)) ≤
        LayeredBxDF.PDF (fun _ _ _ _ => 0) 0 lbTriv ⟨0, 0, 1⟩ ⟨0, 0, -1⟩
          .Radiance ∧
      0 < LayeredBxDF.PDF (fun _ _ _ _ => 0) 0 lbTriv ⟨0, 0, 1⟩ ⟨0, 0, -1⟩
          .Radiance :=
  layeredPDF_mixture_positive (fun _ _ _ _ => 0) 0 lbTriv ⟨0, 0, 1⟩
    ⟨0, 0, -1⟩ .Radiance (fun _ _ _ _ => le_refl 0) (fun _ _ _ _ => le_refl 0)

theorem RGBSpec.r_zero : (0 : RGBSpec).r = 0 := rfl

theorem RGBSpec.g_zero : (0 : RGBSpec).g = 0 := rfl

theorem RGBSpec.b_zero : (0 : RGBSpec).b = 0 := rfl

theorem RGBSpec.mul_def (a b : RGBSpec) :
    a * b = ⟨a.r * b.r, a.g * b.g, a.b * b.b⟩ := rfl

theorem RGBSpec.add_def (a b : RGBSpec) :
    a + b = ⟨a.r + b.r, a.g + b.g, a.b + b.b⟩ := rfl

/-- The path state at the start of a sample (no medium, facing down). -/
def st0 : PathState := ⟨0, RGBSpec.ofQ 1, ⟨0, 0, -1⟩, false, false, 1, 0⟩

/-- A surface-hit event whose BSDF sample has zero spectral f. -/
def evC2 : BounceEvent :=
  { evBase with
    foundIntersection := true, bsdfPresent := true,
    Le := RGBSpec.ofQ 2, Ld := RGBSpec.ofQ 3, pdfS := 1 }

/-- A surface-hit event at an emissive interface-only boundary (null
scattering distribution). -/
def evC7 : BounceEvent :=
  { evBase with
    foundIntersection := true, Le := RGBSpec.ofQ 1 }

/-- C2: when an iteration of `VolPathIntegrator::Li` reaches a surface
vertex whose BSDF sample has zero spectral f or zero pdf, the loop
terminates at that bounce: the returned radiance is exactly the value
accumulated up to that point in the iteration (emission when directly
visible, plus the NEE estimate taken before sampling), independent of every
later event — no further NEE, emission or throughput update occurs. -/
theorem volpath_invalid_sample_terminates (maxDepth : ℕ) (rrThreshold : ℚ)
    (st : PathState) (ev : BounceEvent) (evs : List BounceEvent)
    (hbeta : ¬((if st.rayMedium then st.beta * ev.mediumTr else st.beta) = 0))
    (hmi : ¬(st.rayMedium ∧ ev.miValid))
    (hfound : ev.foundIntersection = true)
    (hdepth : st.depth < maxDepth)
    (hbsdf : ev.bsdfPresent = true)
    (hinv : ev.fS = 0 ∨ ev.pdfS = 0) :
    liLoop maxDepth rrThreshold (ev :: evs) st =
      (if st.depth = 0 ∨ st.specularBounce then
        st.L + (if st.rayMedium then st.beta * ev.mediumTr else st.beta) *
          ev.Le
      else st.L) +
      (if st.rayMedium then st.beta * ev.mediumTr else st.beta) * ev.Ld := by
  have hstep : liStep maxDepth rrThreshold st ev = .done
      ((if st.depth = 0 ∨ st.specularBounce then
        st.L + (if st.rayMedium then st.beta * ev.mediumTr else st.beta) *
          ev.Le
      else st.L) +
      (if st.rayMedium then st.beta * ev.mediumTr else st.beta) * ev.Ld) := by
    simp only [liStep]
    rw [if_neg hbeta, if_neg hmi,
      if_neg (show ¬(¬ev.foundIntersection ∨ maxDepth ≤ st.depth) by
        rintro (h | h)
        · exact h hfound
        · omega),
      if_neg (show ¬¬ev.bsdfPresent from not_not_intro hbsdf),
      if_pos hinv]
  simp only [liLoop, hstep]

/-- C2 witness: at the concrete invalid sample, the loop returns the NEE
value of that bounce whatever events would have followed. -/
theorem volpath_invalid_sample_terminates_witness :
    liLoop 5 1 [evC2] st0 =
      (if st0.depth = 0 ∨ st0.specularBounce then
        st0.L + (if st0.rayMedium then st0.beta * evC2.mediumTr else st0.beta)
          * evC2.Le
      else st0.L) +
      (if st0.rayMedium then st0.beta * evC2.mediumTr else st0.beta) *
        evC2.Ld :=
  volpath_invalid_sample_terminates 5 1 st0 evC2 []
    (by norm_num [st0, RGBSpec.ofQ, RGBSpec.rgb_mk_eq_zero_iff])
    (by norm_num [st0])
    (by norm_num [evC2, evBase])
    (by norm_num [st0])
    (by norm_num [evC2, evBase])
    (Or.inl (by norm_num [evC2, evBase]))

/-- C7 counterexample: at depth 0 on an emissive surface whose scattering
distribution is null, the iteration changes `L` (it adds the directly
visible emission before the null-BSDF check), contradicting the claim that
the iteration leaves `L` unchanged. -/
theorem volpath_null_bsdf_emission_counterexample :
    liStep 5 1 st0 evC7 =
      .next ⟨RGBSpec.ofQ 1, RGBSpec.ofQ 1, ⟨0, 0, -1⟩, false, false, 1, 0⟩ ∧
    RGBSpec.ofQ 1 ≠ st0.L := by
  constructor
  · norm_num [liStep, st0, evC7, evBase, RGBSpec.ofQ, RGBSpec.rgb_mk_eq_zero_iff,
      RGBSpec.mul_def, RGBSpec.add_def, RGBSpec.r_zero, RGBSpec.g_zero,
      RGBSpec.b_zero]
  · norm_num [st0, RGBSpec.ofQ, RGBSpec.rgb_mk_eq_zero_iff]

/-- C7 amended: when `ComputeScatteringFunctions` yields a null scattering
distribution at a found intersection below the depth cap, the iteration
re-spawns the ray in the unchanged direction with the depth counter net
unchanged (decremented, then re-incremented by the loop); `etaScale` and the
specular-bounce flag are unchanged, and from the moment the null result is
observed neither `L` nor `beta` changes — though earlier in that same
iteration `L` may already have received directly visible emission (at depth
0 or after a specular bounce) and `beta` the medium transmittance factor. -/
theorem volpath_null_bsdf_free_bounce (maxDepth : ℕ) (rrThreshold : ℚ)
    (st : PathState) (ev : BounceEvent)
    (hbeta : ¬((if st.rayMedium then st.beta * ev.mediumTr else st.beta) = 0))
    (hmi : ¬(st.rayMedium ∧ ev.miValid))
    (hfound : ev.foundIntersection = true)
    (hdepth : st.depth < maxDepth)
    (hnull : ev.bsdfPresent = false) :
    liStep maxDepth rrThreshold st ev = .next
      { L := if st.depth = 0 ∨ st.specularBounce then
          st.L + (if st.rayMedium then st.beta * ev.mediumTr else st.beta) *
            ev.Le
        else st.L,
        beta := if st.rayMedium then st.beta * ev.mediumTr else st.beta,
        rayDir := st.rayDir,
        rayMedium := ev.nullMedium,
        specularBounce := st.specularBounce,
        etaScale := st.etaScale,
        depth := st.depth } := by
  simp only [liStep]
  rw [if_neg hbeta, if_neg hmi,
    if_neg (show ¬(¬ev.foundIntersection ∨ maxDepth ≤ st.depth) by
      rintro (h | h)
      · exact h hfound
      · omega),
    if_pos (show ¬ev.bsdfPresent by simp [hnull])]

/-- C7 witness: the free bounce evaluated at the concrete emissive
null-boundary event. -/
theorem volpath_null_bsdf_free_bounce_witness :
    liStep 5 1 st0 evC7 = .next
      { L := if st0.depth = 0 ∨ st0.specularBounce then
          st0.L + (if st0.rayMedium then st0.beta * evC7.mediumTr
            else st0.beta) * evC7.Le
        else st0.L,
        beta := if st0.rayMedium then st0.beta * evC7.mediumTr else st0.beta,
        rayDir := st0.rayDir,
        rayMedium := evC7.nullMedium,
        specularBounce := st0.specularBounce,
        etaScale := st0.etaScale,
        depth := st0.depth } :=
  volpath_null_bsdf_free_bounce 5 1 st0 evC7
    (by norm_num [st0, RGBSpec.ofQ, RGBSpec.rgb_mk_eq_zero_iff])
    (by norm_num [st0])
    (by norm_num [evC7, evBase])
    (by norm_num [st0])
    (by norm_num [evC7, evBase])

theorem BSDFSample.invalid_isValid : BSDFSample.invalid.isValid = false := by
  simp [BSDFSample.isValid, BSDFSample.invalid]

/-- C6 counterexample: `DiffuseBxDF` with nonzero reflectance and
transmittance and zero roughness, queried at `wo = (1,0,0)` (zero cosine)
with `uc = 0`, `u = (1/2, 1/2)` (where the concentric cosine-hemisphere map
returns `(0,0,1)`), returns a VALID sample: the reflection lobe is chosen
but the evaluated `f` falls back to the transmission response `T/Pi`, which
is nonzero, and the pdf is `1/(2*Pi) > 0` — contradicting the claim that
every variant returns an invalid sample whenever `wo.z = 0`. -/
theorem diffuse_zero_cosine_valid_sample :
    (⟨1, 0, 0⟩ : Vec3).z = 0 ∧
    (DiffuseBxDF.Sample_f extZero
      (DiffuseBxDF.ctor (SampledSpectrum.ofQ 1) (SampledSpectrum.ofQ 1) 0)
      ⟨1, 0, 0⟩ 0 ⟨1 / 2, 1 / 2⟩ .Radiance ReflTrans.all).isValid = true := by
  refine ⟨rfl, ?_⟩
  norm_num [DiffuseBxDF.Sample_f, DiffuseBxDF.ctor, DiffuseBxDF.f, extZero,
    sampleDiscrete2, sameHemisphere, absCosTheta, BSDFSample.isValid,
    SampledSpectrum.maxComponent, SampledSpectrum.ofQ,
    SampledSpectrum.scale, SampledSpectrum.mk_eq_zero_iff, ReflTrans.all,
    invPiF, piF]

/-- C6 amended: every implemented variant returns an invalid sample whenever
the supplied lobe mask excludes all lobes the variant can sample, and
`DielectricInterfaceBxDF` and `IdealDiffuseBxDF` additionally return an
invalid sample whenever `wo.z = 0`; `DiffuseBxDF`, however, can return a
valid sample at `wo.z = 0` (see the counterexample), so the zero-cosine part
does not extend to it. -/
theorem sample_invalid_conditions :
    (∀ (E : ExternalFns) (b : IdealDiffuseBxDF) (wo : Vec3) (uc : ℚ)
      (u : Point2) (mode : TransportMode) (fl : ReflTrans),
      fl.reflection = false →
      (IdealDiffuseBxDF.Sample_f E b wo uc u mode fl).isValid = false) ∧
    (∀ (E : ExternalFns) (b : DiffuseBxDF) (wo : Vec3) (uc : ℚ) (u : Point2)
      (mode : TransportMode) (fl : ReflTrans),
      (fl.reflection = false ∨ b.R = 0) →
      (fl.transmission = false ∨ b.T = 0) →
      (DiffuseBxDF.Sample_f E b wo uc u mode fl).isValid = false) ∧
    (∀ (E : ExternalFns) (b : DielectricInterfaceBxDF) (wo : Vec3) (uc : ℚ)
      (u : Point2) (mode : TransportMode),
      (DielectricInterfaceBxDF.Sample_f E b wo uc u mode
        ⟨false, false⟩).isValid = false) ∧
    (∀ (E : ExternalFns) (b : ThinDielectricBxDF) (wo : Vec3) (uc : ℚ)
      (u : Point2) (mode : TransportMode),
      (ThinDielectricBxDF.Sample_f E b wo uc u mode
        ⟨false, false⟩).isValid = false) ∧
    (∀ (E : ExternalFns) (b : ConductorBxDF) (wo : Vec3) (uc : ℚ)
      (u : Point2) (mode : TransportMode) (fl : ReflTrans),
      fl.reflection = false →
      (ConductorBxDF.Sample_f E b wo uc u mode fl).isValid = false) ∧
    (∀ (E : ExternalFns) (b : DielectricInterfaceBxDF) (wo : Vec3) (uc : ℚ)
      (u : Point2) (mode : TransportMode) (fl : ReflTrans), wo.z = 0 →
      (DielectricInterfaceBxDF.Sample_f E b wo uc u mode fl).isValid =
        false) ∧
    (∀ (E : ExternalFns) (b : IdealDiffuseBxDF) (wo : Vec3) (uc : ℚ)
      (u : Point2) (mode : TransportMode) (fl : ReflTrans), wo.z = 0 →
      (IdealDiffuseBxDF.Sample_f E b wo uc u mode fl).isValid = false) := by
  refine ⟨?_, ?_, ?_, ?_, ?_, ?_, ?_⟩
  · intro E b wo uc u mode fl h
    simp [IdealDiffuseBxDF.Sample_f, h, BSDFSample.invalid_isValid]
  · intro E b wo uc u mode fl h1 h2
    have hpr : (if fl.reflection then b.R.maxComponent else 0) = 0 := by
      rcases h1 with h | h
      · simp [h]
      · simp [h, SampledSpectrum.maxComponent_zero]
    have hpt : (if fl.transmission then b.T.maxComponent else 0) = 0 := by
      rcases h2 with h | h
      · simp [h]
      · simp [h, SampledSpectrum.maxComponent_zero]
    simp [DiffuseBxDF.Sample_f, hpr, hpt, BSDFSample.invalid_isValid]
  · intro E b wo uc u mode
    by_cases hw : wo.z = 0
    · simp [DielectricInterfaceBxDF.Sample_f, hw, BSDFSample.invalid_isValid]
    · by_cases hs : b.mfDistrib.effectivelySpecular <;>
        simp [DielectricInterfaceBxDF.Sample_f, hw, hs,
          BSDFSample.invalid_isValid]
  · intro E b wo uc u mode
    simp [ThinDielectricBxDF.Sample_f, BSDFSample.invalid_isValid]
  · intro E b wo uc u mode fl h
    simp [ConductorBxDF.Sample_f, h, BSDFSample.invalid_isValid]
  · intro E b wo uc u mode fl h
    simp [DielectricInterfaceBxDF.Sample_f, h, BSDFSample.invalid_isValid]
  · intro E b wo uc u mode fl h
    by_cases hr : fl.reflection = true
    · simp [IdealDiffuseBxDF.Sample_f, hr, IdealDiffuseBxDF.f,
        sameHemisphere, h, BSDFSample.isValid]
    · simp [IdealDiffuseBxDF.Sample_f, hr, BSDFSample.invalid_isValid]

/-- C6 witness: two of the invalidity regimes evaluated concretely. -/
theorem sample_invalid_conditions_witness :
    (IdealDiffuseBxDF.Sample_f extZero ⟨SampledSpectrum.ofQ 1⟩ ⟨0, 0, 1⟩ 0
      ⟨0, 0⟩ .Radiance ⟨false, true⟩).isValid = false ∧
    (DielectricInterfaceBxDF.Sample_f extZero
      (DielectricInterfaceBxDF.ctor (3 / 2) trZero) ⟨1, 0, 0⟩ 0 ⟨0, 0⟩
      .Radiance ReflTrans.all).isValid = false :=
  ⟨sample_invalid_conditions.1 extZero _ _ _ _ _ _ rfl,
   sample_invalid_conditions.2.2.2.2.2.1 extZero _ _ _ _ _ _ rfl⟩

end Pbrt
